import Mathlib

/-!
Verification of the Coffee Shop backend route layer (src/backend/src/api.py).

The five Flask routes of api.py are embedded as pure functions over an
explicit database state.  HTTP requests are values (endpoint, token state,
optional parsed JSON body) and responses are (status, JSON body) pairs.
The persistence model (database/models.py) and the authorization module
(auth/auth.py) are imported by api.py but are not part of the sources;
the definitions that stand for them are modelled from the spec and marked
as such in their doc comments.
-/

/-- JSON values, as produced by Python's json module / Flask's jsonify. -/
inductive Json where
  | null : Json
  | bool (b : Bool) : Json
  | num (n : Int) : Json
  | str (s : String) : Json
  | arr (elems : List Json) : Json
  | obj (fields : List (String × Json)) : Json

/-- Python truthiness of a JSON value: None, False, 0, "", [] and \x7b\x7d
are falsy, everything else is truthy.  api.py uses bare `if value:` tests
on values read from request bodies. -/
def jsonTruthy : Json → Bool
  | .null => false
  | .bool b => b
  | .num n => n != 0
  | .str s => !s.isEmpty
  | .arr elems => !elems.isEmpty
  | .obj fields => !fields.isEmpty

/-- Python's `dict.get(key, None)` on a parsed JSON object: the value of
the first binding of `key`, or None (null) when absent. -/
def objGet : List (String × Json) → String → Json
  | [], _ => .null
  | (k, v) :: rest, key => if k = key then v else objGet rest key

/-- Modelled from the spec: database/models.py is not under src/.  A Drink
row has a surrogate id, a title, and a recipe stored as serialized
structured data.  The title and recipe are held as the JSON values the
routes assign to them; the json.dumps/json.loads round trip between the
route layer and the column text is elided. -/
structure Drink where
  id : Nat
  title : Json
  recipe : Json

/-- Modelled from the spec: the long() data representation of a Drink
(id, title, full recipe), used by /drinks-detail, POST and PATCH. -/
def Drink.long (d : Drink) : Json :=
  .obj [("id", .num d.id), ("title", d.title), ("recipe", d.recipe)]

/-- Modelled from the spec: one recipe ingredient in the short()
representation keeps only its color and parts, dropping the name. -/
def ingredientShort : Json → Json
  | .obj fields => .obj (fields.filter (fun kv => kv.1 = "color" || kv.1 = "parts"))
  | j => j

/-- Modelled from the spec: a recipe in the short() representation. -/
def recipeShort : Json → Json
  | .arr elems => .arr (elems.map ingredientShort)
  | j => j

/-- Modelled from the spec: the short() data representation of a Drink,
used by the public GET /drinks listing. -/
def Drink.short (d : Drink) : Json :=
  .obj [("id", .num d.id), ("title", d.title), ("recipe", recipeShort d.recipe)]

/-- The database state: the drinks table plus the autoincrement counter
for the surrogate primary key. -/
structure DB where
  drinks : List Drink
  nextId : Nat

/-- Insert a drink comparison-sorted by id (model of
`Drink.query.order_by(Drink.id)`). -/
def insertById (d : Drink) : List Drink → List Drink
  | [] => [d]
  | x :: xs => if d.id ≤ x.id then d :: x :: xs else x :: insertById d xs

/-- `Drink.query.order_by(Drink.id).all()`: the table rows sorted by id. -/
def orderById : List Drink → List Drink
  | [] => []
  | x :: xs => insertById x (orderById xs)

/-- `Drink.query.filter(Drink.id == drink_id).one_or_none()`: the row with
the given id, or None.  id is the surrogate primary key, so at most one
row matches and first-match lookup is exact. -/
def findDrink (db : DB) (drink_id : Nat) : Option Drink :=
  db.drinks.find? (fun d => d.id = drink_id)

/-- Modelled from the spec: `Drink.insert()` from database/models.py adds
a new row, the autoincrement column assigning the next id. -/
def DB.insertDrink (db : DB) (title recipe : Json) : DB × Drink :=
  let d : Drink := ⟨db.nextId, title, recipe⟩
  (⟨db.drinks ++ [d], db.nextId + 1⟩, d)

/-- Modelled from the spec: `Drink.update()` commits the mutated row; the
table afterwards holds the new value at the row's id. -/
def DB.updateDrink (db : DB) (d : Drink) : DB :=
  ⟨db.drinks.map (fun x => if x.id = d.id then d else x), db.nextId⟩

/-- Modelled from the spec: `Drink.delete()` removes the row with the
given id from the table. -/
def DB.deleteDrink (db : DB) (drink_id : Nat) : DB :=
  ⟨db.drinks.filter (fun x => x.id ≠ drink_id), db.nextId⟩

/-- An HTTP response: status code and JSON body. -/
structure Response where
  status : Nat
  body : Json

/-- The 422 error handler of api.py (`unprocessable`, lines 186-192). -/
def unprocessable : Response :=
  ⟨422, .obj [("success", .bool false), ("error", .num 422), ("message", .str "unprocessable")]⟩

/-- The 404 error handler of api.py (`resource_not_found`, lines 209-215). -/
def resource_not_found : Response :=
  ⟨404, .obj [("success", .bool false), ("error", .num 404), ("message", .str "resource not found")]⟩

/-- Modelled from the spec: the typed authorization error raised by
auth/auth.py, carrying an HTTP status code and an error message payload
(api.py reads `.status_code` and `.error` from it, lines 225-226). -/
structure AuthError where
  error : Json
  status_code : Nat

/-- The AuthError handler of api.py (`autherror`, lines 221-227): responds
with the error's own status code and an envelope holding it. -/
def autherror (e : AuthError) : Response :=
  ⟨e.status_code, .obj [("success", .bool false), ("error", .num e.status_code), ("message", e.error)]⟩

/-- Flask's fallback for an exception no handler catches: HTTP 500
Internal Server Error (an HTML page, not a JSON envelope). -/
def serverError : Response := ⟨500, .null⟩

/-- The authorization-relevant state of a request: no Authorization
header, a token that fails verification, or a verified token carrying a
set of permission strings. -/
inductive TokenState where
  | missing : TokenState
  | invalid : TokenState
  | valid (permissions : List String) : TokenState

/-- Modelled from the spec: `requires_auth(permission)` from auth/auth.py.
Given a bearer token it verifies the signature, expiry and audience, then
asserts the required permission string is present in the token's claim
set; otherwise it raises a typed authorization error with an HTTP status
(401 for a missing or invalid token, 403 for a missing permission) and a
message, caught by the global handler. -/
def requires_auth (permission : String) : TokenState → Except AuthError Json
  | .missing => .error ⟨.str "authorization header missing", 401⟩
  | .invalid => .error ⟨.str "invalid token", 401⟩
  | .valid permissions =>
      if permission ∈ permissions then
        .ok (.obj [("permissions", .arr (permissions.map .str))])
      else
        .error ⟨.str "permission not found", 403⟩

/-- GET /drinks (api.py lines 30-42): list all drinks ordered by id in
the short() representation.  NOTE the source writes `'success': 'True'`,
the Python STRING "True", not the boolean True. -/
def get_drinks (db : DB) : Response :=
  ⟨200, .obj [("success", .str "True"),
              ("drinks", .arr ((orderById db.drinks).map Drink.short))]⟩

/-- GET /drinks-detail handler body (api.py lines 52-66): list all drinks
ordered by id in the long() representation. -/
def get_drinks_detail (db : DB) : Response :=
  ⟨200, .obj [("success", .bool true),
              ("drinks", .arr ((orderById db.drinks).map Drink.long))]⟩

/-- POST /drinks handler body (api.py lines 78-105).  body is the result
of `request.get_json()`: none when the request carries no JSON body.
A None body aborts 422.  `body.get(...)` on lines 87-88 runs OUTSIDE the
try block, so on a JSON body that is not an object it raises an uncaught
AttributeError and Flask answers 500.  With an object body, a row is
inserted only when both title and recipe are truthy, else the handler
aborts 422 (the abort(404)/abort(422) calls inside try are themselves
HTTPExceptions caught by `except Exception`, which re-aborts 422). -/
def create_drinks (db : DB) (body : Option Json) : DB × Response :=
  match body with
  | none => (db, unprocessable)
  | some (.obj fields) =>
      let new_drink_title := objGet fields "title"
      let new_drink_recipe := objGet fields "recipe"
      if jsonTruthy new_drink_title && jsonTruthy new_drink_recipe then
        let (db2, new_drink) := db.insertDrink new_drink_title new_drink_recipe
        (db2, ⟨200, .obj [("success", .bool true), ("drinks", .arr [new_drink.long])]⟩)
      else
        (db, unprocessable)
  | some _ => (db, serverError)

/-- PATCH /drinks/drink_id handler body (api.py lines 119-148).  When the
id is absent, line 125 `print(drink.long())` raises AttributeError on
None, which `except Exception` turns into abort(422) — the abort(404) on
line 127 is never reached (and would itself be caught by the same except
clause).  With a found drink, a missing or non-object body makes
`body.get` raise inside the try block, again yielding 422.  Otherwise
each of title and recipe is assigned only when the supplied value is
truthy, and the committed row is returned in long() form. -/
def update_drink (db : DB) (drink_id : Nat) (body : Option Json) : DB × Response :=
  match findDrink db drink_id with
  | none => (db, unprocessable)
  | some drink =>
      match body with
      | some (.obj fields) =>
          let updated_drink_title := objGet fields "title"
          let updated_drink_recipe := objGet fields "recipe"
          let drink2 : Drink :=
            { drink with
              title := if jsonTruthy updated_drink_title then updated_drink_title else drink.title,
              recipe := if jsonTruthy updated_drink_recipe then updated_drink_recipe else drink.recipe }
          (db.updateDrink drink2,
           ⟨200, .obj [("success", .bool true), ("drinks", .arr [drink2.long])]⟩)
      | _ => (db, unprocessable)

/-- DELETE /drinks/drink_id handler body (api.py lines 161-180).  When
the id is absent the abort(404) on line 169 is raised inside the try
block; `except Exception` catches the HTTPException and aborts 422, so
the observed status is 422.  When the row exists it is deleted and
\x7bsuccess: True, delete: drink_id\x7d is returned. -/
def delete_drink (db : DB) (drink_id : Nat) : DB × Response :=
  match findDrink db drink_id with
  | none => (db, unprocessable)
  | some _ =>
      (db.deleteDrink drink_id,
       ⟨200, .obj [("success", .bool true), ("delete", .num drink_id)]⟩)

/-- A request to one of the five endpoints, with its route parameters and
parsed JSON body where the route reads one. -/
inductive Endpoint where
  | getDrinks : Endpoint
  | getDrinksDetail : Endpoint
  | postDrinks (body : Option Json) : Endpoint
  | patchDrink (drink_id : Nat) (body : Option Json) : Endpoint
  | deleteDrink (drink_id : Nat) : Endpoint

/-- The full application behaviour of api.py on one request: GET /drinks
is public; each other route runs behind its `@requires_auth(...)`
decorator, whose AuthError is answered by the `autherror` handler. -/
def dispatch (db : DB) (tok : TokenState) : Endpoint → DB × Response
  | .getDrinks => (db, get_drinks db)
  | .getDrinksDetail =>
      match requires_auth "get:drinks-detail" tok with
      | .error e => (db, autherror e)
      | .ok _ => (db, get_drinks_detail db)
  | .postDrinks body =>
      match requires_auth "post:drinks" tok with
      | .error e => (db, autherror e)
      | .ok _ => create_drinks db body
  | .patchDrink drink_id body =>
      match requires_auth "patch:drinks" tok with
      | .error e => (db, autherror e)
      | .ok _ => update_drink db drink_id body
  | .deleteDrink drink_id =>
      match requires_auth "delete:drinks" tok with
      | .error e => (db, autherror e)
      | .ok _ => delete_drink db drink_id

/-- The permission string demanded by each route's `@requires_auth(...)`
decorator; GET /drinks carries no decorator. -/
def requiredPermission : Endpoint → Option String
  | .getDrinks => none
  | .getDrinksDetail => some "get:drinks-detail"
  | .postDrinks _ => some "post:drinks"
  | .patchDrink _ _ => some "patch:drinks"
  | .deleteDrink _ => some "delete:drinks"

/-- Read a field out of a JSON object response body. -/
def jsonGet (j : Json) (key : String) : Json :=
  match j with
  | .obj fields => objGet fields key
  | _ => .null

/-- The list behind the "drinks" field of a response body. -/
def responseDrinks (r : Response) : List Json :=
  match jsonGet r.body "drinks" with
  | .arr elems => elems
  | _ => []

theorem mem_insertById (d a : Drink) (l : List Drink) :
    a ∈ insertById d l ↔ a = d ∨ a ∈ l := by
  induction l with
  | nil => simp [insertById]
  | cons x xs ih =>
    by_cases h : d.id ≤ x.id
    · simp [insertById, h]
    · simp [insertById, h, ih]
      tauto

theorem mem_orderById (a : Drink) (l : List Drink) :
    a ∈ orderById l ↔ a ∈ l := by
  induction l with
  | nil => simp [orderById]
  | cons x xs ih => simp [orderById, mem_insertById, ih]

theorem findDrink_id {db : DB} {i : Nat} {d : Drink}
    (h : findDrink db i = some d) : d.id = i := by
  have := List.find?_some h
  simpa using this

theorem findDrink_mem {db : DB} {i : Nat} {d : Drink}
    (h : findDrink db i = some d) : d ∈ db.drinks :=
  List.mem_of_find?_eq_some h

theorem find?_map_update (l : List Drink) (i : Nat) (d d2 : Drink)
    (hid : d2.id = d.id)
    (hfind : l.find? (fun x => x.id = i) = some d) :
    (l.map (fun x => if x.id = d2.id then d2 else x)).find? (fun x => x.id = i) = some d2 := by
  have hdi : d.id = i := by simpa using List.find?_some hfind
  induction l with
  | nil => simp at hfind
  | cons x xs ih =>
    by_cases hx : x.id = i
    · rw [List.find?_cons_of_pos _ (by simpa using hx)] at hfind
      have hxd : x = d := by injection hfind
      subst hxd
      have hcond : x.id = d2.id := by omega
      simp only [List.map_cons, hcond, if_pos rfl]
      exact List.find?_cons_of_pos _ (by simp; omega)
    · rw [List.find?_cons_of_neg _ (by simpa using hx)] at hfind
      have hcond : ¬ x.id = d2.id := by omega
      simp only [List.map_cons, if_neg hcond]
      rw [List.find?_cons_of_neg _ (by simpa using hx)]
      exact ih hfind

theorem findDrink_updateDrink {db : DB} {i : Nat} {d : Drink} (d2 : Drink)
    (hfind : findDrink db i = some d) (hid : d2.id = d.id) :
    findDrink (db.updateDrink d2) i = some d2 :=
  find?_map_update db.drinks i d d2 hid hfind

theorem findDrink_deleteDrink (db : DB) (i : Nat) :
    findDrink (db.deleteDrink i) i = none := by
  rw [findDrink, List.find?_eq_none]
  intro x hx
  have := (List.mem_filter.mp hx).2
  simpa using this

theorem Drink.short_id {x y : Drink} (h : Drink.short x = Drink.short y) :
    x.id = y.id := by
  simp only [Drink.short, Json.obj.injEq, List.cons.injEq, Prod.mk.injEq,
    Json.num.injEq] at h
  exact_mod_cast h.1.2

/-- Claim C1: with an empty drinks table, PATCH /drinks/1 and
DELETE /drinks/1 (with the required permissions) both answer 422, not
the 404 the claim and the route docstrings state: the abort(404) calls
sit inside try blocks whose `except Exception` re-aborts 422, and
update_drink additionally calls drink.long() on None first. -/
theorem C1_missing_id_responds_422_not_404 :
    (dispatch ⟨[], 1⟩ (.valid ["patch:drinks"]) (.patchDrink 1 (some (Json.obj [])))).2.status = 422 ∧
    (dispatch ⟨[], 1⟩ (.valid ["delete:drinks"]) (.deleteDrink 1)).2.status = 422 ∧
    (dispatch ⟨[], 1⟩ (.valid ["patch:drinks"]) (.patchDrink 1 (some (Json.obj [])))).2.status ≠ 404 ∧
    (dispatch ⟨[], 1⟩ (.valid ["delete:drinks"]) (.deleteDrink 1)).2.status ≠ 404 := by
  refine ⟨rfl, rfl, ?_, ?_⟩ <;> decide

/-- Claim C2: GET /drinks succeeds (status 200) but its success field is
the JSON STRING "True" (api.py line 36 writes the Python string literal
'True'), not the boolean true the claim and the docstring state; the
detail route, by contrast, does return the boolean. -/
theorem C2_get_drinks_success_is_string_not_bool :
    (get_drinks ⟨[], 1⟩).status = 200 ∧
    jsonGet (get_drinks ⟨[], 1⟩).body "success" = Json.str "True" ∧
    jsonGet (get_drinks ⟨[], 1⟩).body "success" ≠ Json.bool true ∧
    jsonGet (get_drinks_detail ⟨[], 1⟩).body "success" = Json.bool true := by
  refine ⟨rfl, rfl, ?_, rfl⟩
  intro h
  simp [get_drinks, jsonGet, objGet] at h

/-- Claim C3: for an existing drink, a PATCH body that supplies no value
for a field leaves that field unchanged: with no "title" binding the
updated row keeps its title, and with no "recipe" binding it keeps its
recipe. -/
theorem C3_patch_preserves_unsupplied_fields
    (db : DB) (i : Nat) (fields : List (String × Json)) (d : Drink)
    (hfind : findDrink db i = some d) :
    (objGet fields "title" = Json.null →
      ∃ d2 : Drink, findDrink (update_drink db i (some (Json.obj fields))).1 i = some d2 ∧
        d2.title = d.title) ∧
    (objGet fields "recipe" = Json.null →
      ∃ d2 : Drink, findDrink (update_drink db i (some (Json.obj fields))).1 i = some d2 ∧
        d2.recipe = d.recipe) := by
  simp only [update_drink, hfind]
  constructor
  · intro ht
    refine ⟨_, findDrink_updateDrink _ hfind rfl, ?_⟩
    simp [ht, jsonTruthy]
  · intro hr
    refine ⟨_, findDrink_updateDrink _ hfind rfl, ?_⟩
    simp [hr, jsonTruthy]

/-- Witness for C3 at a one-row table, with a body supplying only the
other field in each conjunct. -/
theorem C3_witness :
    (objGet [("recipe", Json.str "r2")] "title" = Json.null →
      ∃ d2 : Drink,
        findDrink (update_drink ⟨[⟨1, Json.str "water", Json.str "r"⟩], 2⟩ 1
          (some (Json.obj [("recipe", Json.str "r2")]))).1 1 = some d2 ∧
        d2.title = Json.str "water") ∧
    (objGet [("recipe", Json.str "r2")] "recipe" = Json.null →
      ∃ d2 : Drink,
        findDrink (update_drink ⟨[⟨1, Json.str "water", Json.str "r"⟩], 2⟩ 1
          (some (Json.obj [("recipe", Json.str "r2")]))).1 1 = some d2 ∧
        d2.recipe = Json.str "r") :=
  C3_patch_preserves_unsupplied_fields ⟨[⟨1, Json.str "water", Json.str "r"⟩], 2⟩ 1
    [("recipe", Json.str "r2")] ⟨1, Json.str "water", Json.str "r"⟩ rfl

/-- Claim C4: every successful POST /drinks answers with the created
drink in long() form, and that drink's short() representation appears in
the listing a subsequent GET /drinks returns. -/
theorem C4_created_drink_appears_in_listing
    (db db2 : DB) (body : Option Json) (resp : Response)
    (hpost : create_drinks db body = (db2, resp))
    (hok : resp.status = 200) :
    ∃ d : Drink,
      resp.body = Json.obj [("success", Json.bool true), ("drinks", Json.arr [d.long])] ∧
      d ∈ db2.drinks ∧
      Drink.short d ∈ responseDrinks (get_drinks db2) := by
  cases body with
  | none =>
    simp only [create_drinks] at hpost
    cases hpost
    simp [unprocessable] at hok
  | some j =>
    cases j with
    | obj fields =>
      simp only [create_drinks] at hpost
      by_cases hguard :
          (jsonTruthy (objGet fields "title") && jsonTruthy (objGet fields "recipe")) = true
      · rw [if_pos hguard] at hpost
        simp only [DB.insertDrink, Prod.mk.injEq] at hpost
        obtain ⟨hdb2, hresp⟩ := hpost
        refine ⟨⟨db.nextId, objGet fields "title", objGet fields "recipe"⟩, ?_, ?_, ?_⟩
        · rw [← hresp]
        · rw [← hdb2]
          simp
        · rw [← hdb2]
          simp only [responseDrinks, get_drinks, jsonGet, objGet]
          refine List.mem_map_of_mem Drink.short ?_
          rw [mem_orderById]
          simp
      · rw [if_neg hguard] at hpost
        cases hpost
        simp [unprocessable] at hok
    | null =>
      simp only [create_drinks] at hpost
      cases hpost
      simp [serverError] at hok
    | bool b =>
      simp only [create_drinks] at hpost
      cases hpost
      simp [serverError] at hok
    | num n =>
      simp only [create_drinks] at hpost
      cases hpost
      simp [serverError] at hok
    | str s =>
      simp only [create_drinks] at hpost
      cases hpost
      simp [serverError] at hok
    | arr elems =>
      simp only [create_drinks] at hpost
      cases hpost
      simp [serverError] at hok

/-- Witness for C4: creating "water" in an empty table. -/
theorem C4_witness :
    ∃ d : Drink,
      (create_drinks ⟨[], 1⟩
        (some (Json.obj [("title", Json.str "water"), ("recipe", Json.arr [Json.obj
          [("name", Json.str "water"), ("color", Json.str "blue"), ("parts", Json.num 1)]])]))).2.body =
        Json.obj [("success", Json.bool true), ("drinks", Json.arr [d.long])] ∧
      d ∈ (create_drinks ⟨[], 1⟩
        (some (Json.obj [("title", Json.str "water"), ("recipe", Json.arr [Json.obj
          [("name", Json.str "water"), ("color", Json.str "blue"), ("parts", Json.num 1)]])]))).1.drinks ∧
      Drink.short d ∈ responseDrinks (get_drinks (create_drinks ⟨[], 1⟩
        (some (Json.obj [("title", Json.str "water"), ("recipe", Json.arr [Json.obj
          [("name", Json.str "water"), ("color", Json.str "blue"), ("parts", Json.num 1)]])]))).1) :=
  C4_created_drink_appears_in_listing ⟨[], 1⟩
    (create_drinks ⟨[], 1⟩
      (some (Json.obj [("title", Json.str "water"), ("recipe", Json.arr [Json.obj
        [("name", Json.str "water"), ("color", Json.str "blue"), ("parts", Json.num 1)]])]))).1
    (some (Json.obj [("title", Json.str "water"), ("recipe", Json.arr [Json.obj
      [("name", Json.str "water"), ("color", Json.str "blue"), ("parts", Json.num 1)]])]))
    (create_drinks ⟨[], 1⟩
      (some (Json.obj [("title", Json.str "water"), ("recipe", Json.arr [Json.obj
        [("name", Json.str "water"), ("color", Json.str "blue"), ("parts", Json.num 1)]])]))).2
    rfl rfl

/-- Claim C5: deleting a present id answers 200 with
\x7bsuccess: True, delete: id\x7d, removes the row, and the deleted
drink's short() representation is absent from a subsequent GET /drinks
listing. -/
theorem C5_delete_removes_row
    (db : DB) (i : Nat) (d : Drink) (hfind : findDrink db i = some d) :
    (delete_drink db i).2 =
      ⟨200, Json.obj [("success", Json.bool true), ("delete", Json.num i)]⟩ ∧
    findDrink (delete_drink db i).1 i = none ∧
    Drink.short d ∉ responseDrinks (get_drinks (delete_drink db i).1) := by
  have hid : d.id = i := findDrink_id hfind
  have hdel : delete_drink db i =
      (db.deleteDrink i,
       ⟨200, Json.obj [("success", Json.bool true), ("delete", Json.num i)]⟩) := by
    simp [delete_drink, hfind]
  rw [hdel]
  refine ⟨rfl, findDrink_deleteDrink db i, ?_⟩
  intro hmem
  simp only [responseDrinks, get_drinks, jsonGet, objGet] at hmem
  obtain ⟨x, hx, hshort⟩ := List.mem_map.mp hmem
  have hxmem : x ∈ (DB.deleteDrink db i).drinks := (mem_orderById x _).mp hx
  have hxne : ¬ x.id = i := by
    have := (List.mem_filter.mp hxmem).2
    simpa using this
  exact hxne (Drink.short_id hshort ▸ hid ▸ rfl)

/-- Witness for C5 on a two-row table, deleting id 1. -/
theorem C5_witness :
    (delete_drink ⟨[⟨1, Json.str "water", Json.str "r"⟩, ⟨2, Json.str "tea", Json.str "t"⟩], 3⟩ 1).2 =
      ⟨200, Json.obj [("success", Json.bool true), ("delete", Json.num 1)]⟩ ∧
    findDrink (delete_drink ⟨[⟨1, Json.str "water", Json.str "r"⟩, ⟨2, Json.str "tea", Json.str "t"⟩], 3⟩ 1).1 1 = none ∧
    Drink.short ⟨1, Json.str "water", Json.str "r"⟩ ∉
      responseDrinks (get_drinks (delete_drink ⟨[⟨1, Json.str "water", Json.str "r"⟩, ⟨2, Json.str "tea", Json.str "t"⟩], 3⟩ 1).1) :=
  C5_delete_removes_row ⟨[⟨1, Json.str "water", Json.str "r"⟩, ⟨2, Json.str "tea", Json.str "t"⟩], 3⟩
    1 ⟨1, Json.str "water", Json.str "r"⟩ rfl

theorem create_drinks_cases (db : DB) (body : Option Json) :
    (create_drinks db body).2.status = 200 ∨
    (create_drinks db body).2 = unprocessable ∨
    (create_drinks db body).2 = serverError := by
  cases body with
  | none => exact Or.inr (Or.inl rfl)
  | some j =>
    cases j with
    | obj fields =>
      simp only [create_drinks]
      split
      · exact Or.inl rfl
      · exact Or.inr (Or.inl rfl)
    | null => exact Or.inr (Or.inr rfl)
    | bool b => exact Or.inr (Or.inr rfl)
    | num n => exact Or.inr (Or.inr rfl)
    | str s => exact Or.inr (Or.inr rfl)
    | arr elems => exact Or.inr (Or.inr rfl)

theorem update_drink_cases (db : DB) (i : Nat) (body : Option Json) :
    (update_drink db i body).2.status = 200 ∨
    (update_drink db i body).2 = unprocessable := by
  rcases hf : findDrink db i with _ | d
  · simp [update_drink, hf]
  · cases body with
    | none => simp [update_drink, hf]
    | some j =>
      cases j with
      | obj fields => simp [update_drink, hf]
      | null => simp [update_drink, hf]
      | bool b => simp [update_drink, hf]
      | num n => simp [update_drink, hf]
      | str s => simp [update_drink, hf]
      | arr elems => simp [update_drink, hf]

theorem delete_drink_cases (db : DB) (i : Nat) :
    (delete_drink db i).2.status = 200 ∨
    (delete_drink db i).2 = unprocessable := by
  rcases hf : findDrink db i with _ | d
  · simp [delete_drink, hf]
  · simp [delete_drink, hf]

/-- Claim C6 counterexample: a POST /drinks body that is valid JSON but
not an object (here the empty array, which certainly lacks a title and a
recipe) is answered 500, not 422: `body.get(...)` on api.py line 87 runs
outside the try block, so the AttributeError escapes the handler.  No
row is inserted. -/
theorem C6_counterexample_non_object_body :
    (create_drinks ⟨[], 1⟩ (some (Json.arr []))).2.status = 500 ∧
    (create_drinks ⟨[], 1⟩ (some (Json.arr []))).2.status ≠ 422 ∧
    (create_drinks ⟨[], 1⟩ (some (Json.arr []))).1 = ⟨[], 1⟩ := by
  refine ⟨rfl, ?_, rfl⟩
  decide

/-- Claim C6 (amended): a POST /drinks request whose body is absent (or
unparseable, which the embedding folds into an absent body) or is a JSON
object without a truthy title or truthy recipe is answered 422 with the
unprocessable envelope, and the database is unchanged. -/
theorem C6_amended_create_rejects_unprocessable (db : DB) (body : Option Json)
    (h : body = none ∨ ∃ fields, body = some (Json.obj fields) ∧
        (jsonTruthy (objGet fields "title") = false ∨
         jsonTruthy (objGet fields "recipe") = false)) :
    create_drinks db body =
      (db, ⟨422, Json.obj [("success", Json.bool false), ("error", Json.num 422),
                          ("message", Json.str "unprocessable")]⟩) := by
  rcases h with rfl | ⟨fields, rfl, hor⟩
  · rfl
  · have hguard :
        (jsonTruthy (objGet fields "title") && jsonTruthy (objGet fields "recipe")) = false := by
      rcases hor with h | h <;> simp [h]
    simp [create_drinks, hguard, unprocessable]

/-- Witness for C6 amended: an empty-string title is rejected with 422
and nothing is inserted. -/
theorem C6_witness :
    create_drinks ⟨[], 1⟩ (some (Json.obj [("title", Json.str ""), ("recipe", Json.str "r")])) =
      (⟨[], 1⟩, ⟨422, Json.obj [("success", Json.bool false), ("error", Json.num 422),
                               ("message", Json.str "unprocessable")]⟩) :=
  C6_amended_create_rejects_unprocessable ⟨[], 1⟩
    (some (Json.obj [("title", Json.str ""), ("recipe", Json.str "r")]))
    (Or.inr ⟨[("title", Json.str ""), ("recipe", Json.str "r")], rfl, Or.inl (by decide)⟩)

/-- Claim C7 counterexample: a POST /drinks request carrying the
post:drinks permission and a valid-JSON non-object body fails with HTTP
500, a status outside 422/404 and outside the 401/403 authorization
statuses. -/
theorem C7_counterexample_uncaught_500 :
    (dispatch ⟨[], 1⟩ (.valid ["post:drinks"]) (.postDrinks (some (Json.arr [])))).2.status = 500 ∧
    (dispatch ⟨[], 1⟩ (.valid ["post:drinks"]) (.postDrinks (some (Json.arr [])))).2.status ≠ 422 ∧
    (dispatch ⟨[], 1⟩ (.valid ["post:drinks"]) (.postDrinks (some (Json.arr [])))).2.status ≠ 404 ∧
    (dispatch ⟨[], 1⟩ (.valid ["post:drinks"]) (.postDrinks (some (Json.arr [])))).2.status ≠ 401 ∧
    (dispatch ⟨[], 1⟩ (.valid ["post:drinks"]) (.postDrinks (some (Json.arr [])))).2.status ≠ 403 := by
  refine ⟨rfl, ?_, ?_, ?_, ?_⟩ <;> decide

/-- Claim C7 (amended): every non-200 response of the five endpoints is
the 422 unprocessable envelope, the 404 resource-not-found envelope, the
500 fallback for the uncaught non-object POST body, or the authorization
envelope carrying the auth error's own 401/403 status. -/
theorem C7_amended_failure_statuses (db : DB) (tok : TokenState) (ep : Endpoint)
    (herr : (dispatch db tok ep).2.status ≠ 200) :
    (dispatch db tok ep).2 = unprocessable ∨
    (dispatch db tok ep).2 = resource_not_found ∨
    (dispatch db tok ep).2 = serverError ∨
    ∃ e : AuthError, (dispatch db tok ep).2 = autherror e ∧
      (e.status_code = 401 ∨ e.status_code = 403) := by
  cases ep with
  | getDrinks => exact absurd rfl herr
  | getDrinksDetail =>
    cases tok with
    | missing => exact Or.inr (Or.inr (Or.inr ⟨_, rfl, Or.inl rfl⟩))
    | invalid => exact Or.inr (Or.inr (Or.inr ⟨_, rfl, Or.inl rfl⟩))
    | valid perms =>
      by_cases hmem : "get:drinks-detail" ∈ perms
      · exact absurd (by simp [dispatch, requires_auth, hmem, get_drinks_detail]) herr
      · refine Or.inr (Or.inr (Or.inr ⟨⟨Json.str "permission not found", 403⟩, ?_, Or.inr rfl⟩))
        simp [dispatch, requires_auth, hmem]
  | postDrinks body =>
    cases tok with
    | missing => exact Or.inr (Or.inr (Or.inr ⟨_, rfl, Or.inl rfl⟩))
    | invalid => exact Or.inr (Or.inr (Or.inr ⟨_, rfl, Or.inl rfl⟩))
    | valid perms =>
      by_cases hmem : "post:drinks" ∈ perms
      · have hd : dispatch db (.valid perms) (.postDrinks body) = create_drinks db body := by
          simp [dispatch, requires_auth, hmem]
        rw [hd] at herr ⊢
        rcases create_drinks_cases db body with h | h | h
        · exact absurd h herr
        · exact Or.inl h
        · exact Or.inr (Or.inr (Or.inl h))
      · refine Or.inr (Or.inr (Or.inr ⟨⟨Json.str "permission not found", 403⟩, ?_, Or.inr rfl⟩))
        simp [dispatch, requires_auth, hmem]
  | patchDrink i body =>
    cases tok with
    | missing => exact Or.inr (Or.inr (Or.inr ⟨_, rfl, Or.inl rfl⟩))
    | invalid => exact Or.inr (Or.inr (Or.inr ⟨_, rfl, Or.inl rfl⟩))
    | valid perms =>
      by_cases hmem : "patch:drinks" ∈ perms
      · have hd : dispatch db (.valid perms) (.patchDrink i body) = update_drink db i body := by
          simp [dispatch, requires_auth, hmem]
        rw [hd] at herr ⊢
        rcases update_drink_cases db i body with h | h
        · exact absurd h herr
        · exact Or.inl h
      · refine Or.inr (Or.inr (Or.inr ⟨⟨Json.str "permission not found", 403⟩, ?_, Or.inr rfl⟩))
        simp [dispatch, requires_auth, hmem]
  | deleteDrink i =>
    cases tok with
    | missing => exact Or.inr (Or.inr (Or.inr ⟨_, rfl, Or.inl rfl⟩))
    | invalid => exact Or.inr (Or.inr (Or.inr ⟨_, rfl, Or.inl rfl⟩))
    | valid perms =>
      by_cases hmem : "delete:drinks" ∈ perms
      · have hd : dispatch db (.valid perms) (.deleteDrink i) = delete_drink db i := by
          simp [dispatch, requires_auth, hmem]
        rw [hd] at herr ⊢
        rcases delete_drink_cases db i with h | h
        · exact absurd h herr
        · exact Or.inl h
      · refine Or.inr (Or.inr (Or.inr ⟨⟨Json.str "permission not found", 403⟩, ?_, Or.inr rfl⟩))
        simp [dispatch, requires_auth, hmem]

/-- Witness for C7 amended: a PATCH of a missing id with a missing token
fails, and its response falls in the allowed shape. -/
theorem C7_witness :
    (dispatch ⟨[], 1⟩ .missing (.patchDrink 1 none)).2 = unprocessable ∨
    (dispatch ⟨[], 1⟩ .missing (.patchDrink 1 none)).2 = resource_not_found ∨
    (dispatch ⟨[], 1⟩ .missing (.patchDrink 1 none)).2 = serverError ∨
    ∃ e : AuthError, (dispatch ⟨[], 1⟩ .missing (.patchDrink 1 none)).2 = autherror e ∧
      (e.status_code = 401 ∨ e.status_code = 403) :=
  C7_amended_failure_statuses ⟨[], 1⟩ .missing (.patchDrink 1 none) (by decide)

/-- Claim C8: on any protected endpoint, a missing token, an invalid
token, or a verified token lacking the route's permission makes
requires_auth raise an AuthError; the global handler answers with the
error's own status (401 or 403) and the envelope
\x7bsuccess: false, error: status_code, message: error\x7d, leaving the
database untouched. -/
theorem C8_auth_error_global_handler (db : DB) (tok : TokenState) (ep : Endpoint)
    (p : String) (hp : requiredPermission ep = some p)
    (htok : tok = .missing ∨ tok = .invalid ∨
      ∃ perms, tok = .valid perms ∧ p ∉ perms) :
    ∃ e : AuthError, requires_auth p tok = .error e ∧
      dispatch db tok ep =
        (db, ⟨e.status_code, Json.obj [("success", Json.bool false),
          ("error", Json.num e.status_code), ("message", e.error)]⟩) ∧
      (e.status_code = 401 ∨ e.status_code = 403) := by
  have herr : ∃ e : AuthError, requires_auth p tok = .error e ∧
      (e.status_code = 401 ∨ e.status_code = 403) := by
    rcases htok with rfl | rfl | ⟨perms, rfl, hnot⟩
    · exact ⟨_, rfl, Or.inl rfl⟩
    · exact ⟨_, rfl, Or.inl rfl⟩
    · exact ⟨⟨Json.str "permission not found", 403⟩, by simp [requires_auth, hnot], Or.inr rfl⟩
  obtain ⟨e, he, hst⟩ := herr
  refine ⟨e, he, ?_, hst⟩
  cases ep with
  | getDrinks => simp [requiredPermission] at hp
  | getDrinksDetail =>
    have hp' : p = "get:drinks-detail" := by
      simpa [requiredPermission] using hp.symm
    subst hp'
    simp [dispatch, he, autherror]
  | postDrinks body =>
    have hp' : p = "post:drinks" := by
      simpa [requiredPermission] using hp.symm
    subst hp'
    simp [dispatch, he, autherror]
  | patchDrink i body =>
    have hp' : p = "patch:drinks" := by
      simpa [requiredPermission] using hp.symm
    subst hp'
    simp [dispatch, he, autherror]
  | deleteDrink i =>
    have hp' : p = "delete:drinks" := by
      simpa [requiredPermission] using hp.symm
    subst hp'
    simp [dispatch, he, autherror]

/-- Witness for C8: GET /drinks-detail without an Authorization header. -/
theorem C8_witness :
    ∃ e : AuthError, requires_auth "get:drinks-detail" .missing = .error e ∧
      dispatch ⟨[], 1⟩ .missing .getDrinksDetail =
        (⟨[], 1⟩, ⟨e.status_code, Json.obj [("success", Json.bool false),
          ("error", Json.num e.status_code), ("message", e.error)]⟩) ∧
      (e.status_code = 401 ∨ e.status_code = 403) :=
  C8_auth_error_global_handler ⟨[], 1⟩ .missing .getDrinksDetail
    "get:drinks-detail" rfl (Or.inl rfl)

/-- Every drink row of the table has a truthy title (in particular, a
string title is non-empty). -/
def TitlesTruthy (db : DB) : Prop :=
  ∀ d ∈ db.drinks, jsonTruthy d.title = true

theorem titlesTruthy_create (db : DB) (body : Option Json)
    (h : TitlesTruthy db) : TitlesTruthy (create_drinks db body).1 := by
  cases body with
  | none => exact h
  | some j =>
    cases j with
    | obj fields =>
      simp only [create_drinks]
      by_cases hguard :
          (jsonTruthy (objGet fields "title") && jsonTruthy (objGet fields "recipe")) = true
      · rw [if_pos hguard]
        intro d hd
        simp only [DB.insertDrink, List.mem_append, List.mem_singleton] at hd
        rcases hd with hd | rfl
        · exact h d hd
        · exact (Bool.and_eq_true _ _ |>.mp hguard).1
      · rw [if_neg hguard]
        exact h
    | null => exact h
    | bool b => exact h
    | num n => exact h
    | str s => exact h
    | arr elems => exact h

theorem titlesTruthy_update (db : DB) (i : Nat) (body : Option Json)
    (h : TitlesTruthy db) : TitlesTruthy (update_drink db i body).1 := by
  rcases hf : findDrink db i with _ | d
  · simp only [update_drink, hf]
    exact h
  · have hdmem : d ∈ db.drinks := findDrink_mem hf
    cases body with
    | none => simp only [update_drink, hf]; exact h
    | some j =>
      cases j with
      | obj fields =>
        simp only [update_drink, hf]
        intro x hx
        simp only [DB.updateDrink, List.mem_map] at hx
        obtain ⟨y, hy, hxy⟩ := hx
        subst hxy
        split
        · by_cases ht : jsonTruthy (objGet fields "title") = true
          · simp [ht]
          · have ht' : jsonTruthy (objGet fields "title") = false := by
              revert ht
              cases jsonTruthy (objGet fields "title") <;> simp
            simpa [ht'] using h d hdmem
        · exact h y hy
      | null => simp only [update_drink, hf]; exact h
      | bool b => simp only [update_drink, hf]; exact h
      | num n => simp only [update_drink, hf]; exact h
      | str s => simp only [update_drink, hf]; exact h
      | arr elems => simp only [update_drink, hf]; exact h

theorem titlesTruthy_delete (db : DB) (i : Nat)
    (h : TitlesTruthy db) : TitlesTruthy (delete_drink db i).1 := by
  rcases hf : findDrink db i with _ | d
  · simp only [delete_drink, hf]
    exact h
  · simp only [delete_drink, hf]
    intro x hx
    simp only [DB.deleteDrink, List.mem_filter] at hx
    exact h x hx.1

theorem titlesTruthy_dispatch (db : DB) (tok : TokenState) (ep : Endpoint)
    (h : TitlesTruthy db) : TitlesTruthy (dispatch db tok ep).1 := by
  cases ep with
  | getDrinks => exact h
  | getDrinksDetail =>
    rcases hr : requires_auth "get:drinks-detail" tok with e | v <;>
      simp only [dispatch, hr] <;> exact h
  | postDrinks body =>
    rcases hr : requires_auth "post:drinks" tok with e | v
    · simp only [dispatch, hr]; exact h
    · simp only [dispatch, hr]; exact titlesTruthy_create db body h
  | patchDrink i body =>
    rcases hr : requires_auth "patch:drinks" tok with e | v
    · simp only [dispatch, hr]; exact h
    · simp only [dispatch, hr]; exact titlesTruthy_update db i body h
  | deleteDrink i =>
    rcases hr : requires_auth "delete:drinks" tok with e | v
    · simp only [dispatch, hr]; exact h
    · simp only [dispatch, hr]; exact titlesTruthy_delete db i h

/-- Claim C9: a create without a truthy title is rejected with 422 and
inserts nothing; truthiness of every stored title is preserved by every
request the application can serve; and a truthy title is never the empty
string.  (Empty and missing titles are both falsy in the Python guards
`if new_drink_title and new_drink_recipe` and `if updated_drink_title`.) -/
theorem C9_nonempty_title_invariant :
    (∀ (db : DB) (fields : List (String × Json)),
        jsonTruthy (objGet fields "title") = false →
        create_drinks db (some (Json.obj fields)) = (db, unprocessable)) ∧
    (∀ (db : DB) (tok : TokenState) (ep : Endpoint),
        TitlesTruthy db → TitlesTruthy (dispatch db tok ep).1) ∧
    (∀ db : DB, TitlesTruthy db → ∀ d ∈ db.drinks, d.title ≠ Json.str "") := by
  refine ⟨?_, fun db tok ep h => titlesTruthy_dispatch db tok ep h, ?_⟩
  · intro db fields ht
    simp [create_drinks, ht, unprocessable]
  · intro db h d hd hstr
    have := h d hd
    rw [hstr] at this
    exact absurd this (by decide)

/-- Witness for C9: a missing title is rejected; deleting from a
well-titled table preserves the invariant; its row's title is not "". -/
theorem C9_witness :
    create_drinks ⟨[], 1⟩ (some (Json.obj [("recipe", Json.str "r")])) = (⟨[], 1⟩, unprocessable) ∧
    TitlesTruthy (dispatch ⟨[⟨1, Json.str "water", Json.str "r"⟩], 2⟩
      (.valid ["delete:drinks"]) (.deleteDrink 1)).1 ∧
    ∀ d ∈ (⟨[⟨1, Json.str "water", Json.str "r"⟩], 2⟩ : DB).drinks, d.title ≠ Json.str "" := by
  have hdb : TitlesTruthy ⟨[⟨1, Json.str "water", Json.str "r"⟩], 2⟩ := by
    intro d hd
    rw [List.mem_singleton.mp hd]
    rfl
  exact ⟨C9_nonempty_title_invariant.1 ⟨[], 1⟩ [("recipe", Json.str "r")] rfl,
         C9_nonempty_title_invariant.2.1 _ (.valid ["delete:drinks"]) (.deleteDrink 1) hdb,
         C9_nonempty_title_invariant.2.2 _ hdb⟩

/-- Claim C10: GET /drinks reaches its handler for every token state,
while each of the four protected routes runs its handler exactly when
the verified token carries its specific permission and otherwise is
answered by the authorization error handler. -/
theorem C10_route_permissions (db : DB) (perms : List String) :
    (∀ tok : TokenState, dispatch db tok .getDrinks = (db, get_drinks db)) ∧
    (dispatch db (.valid perms) .getDrinksDetail =
      if "get:drinks-detail" ∈ perms then (db, get_drinks_detail db)
      else (db, autherror ⟨Json.str "permission not found", 403⟩)) ∧
    (∀ body : Option Json, dispatch db (.valid perms) (.postDrinks body) =
      if "post:drinks" ∈ perms then create_drinks db body
      else (db, autherror ⟨Json.str "permission not found", 403⟩)) ∧
    (∀ (i : Nat) (body : Option Json), dispatch db (.valid perms) (.patchDrink i body) =
      if "patch:drinks" ∈ perms then update_drink db i body
      else (db, autherror ⟨Json.str "permission not found", 403⟩)) ∧
    (∀ i : Nat, dispatch db (.valid perms) (.deleteDrink i) =
      if "delete:drinks" ∈ perms then delete_drink db i
      else (db, autherror ⟨Json.str "permission not found", 403⟩)) := by
  refine ⟨fun tok => rfl, ?_, fun body => ?_, fun i body => ?_, fun i => ?_⟩
  · by_cases hmem : "get:drinks-detail" ∈ perms <;> simp [dispatch, requires_auth, hmem]
  · by_cases hmem : "post:drinks" ∈ perms <;> simp [dispatch, requires_auth, hmem]
  · by_cases hmem : "patch:drinks" ∈ perms <;> simp [dispatch, requires_auth, hmem]
  · by_cases hmem : "delete:drinks" ∈ perms <;> simp [dispatch, requires_auth, hmem]
